import Mathlib

/-!
Verification development for the wxWidgets file-system watcher interface
(`interface/wx/fswatcher.h`).

The repository ships only the public interface header: the class
declarations, their documentation, and the `wxFSWFlags` enumeration.  The
enumeration constants below are taken directly from the header.  The
behaviour of the registry operations, the event translator and the
dispatcher is not present in the sources, so those parts are modelled from
the specification (see the individual doc comments starting with
"Modelled from the spec:").
-/

namespace FsWatcher

/-! ### Event-kind constants (from `enum wxFSWFlags` in the header) -/

/-- File or dir was created (`wxFSW_EVENT_CREATE = 0x01`). -/
def wxFSW_EVENT_CREATE : Nat := 0x01

/-- File or dir was deleted (`wxFSW_EVENT_DELETE = 0x02`). -/
def wxFSW_EVENT_DELETE : Nat := 0x02

/-- File or dir was renamed (`wxFSW_EVENT_RENAME = 0x04`). -/
def wxFSW_EVENT_RENAME : Nat := 0x04

/-- File or dir was modified (`wxFSW_EVENT_MODIFY = 0x08`). -/
def wxFSW_EVENT_MODIFY : Nat := 0x08

/-- File or dir was accessed (`wxFSW_EVENT_ACCESS = 0x10`). -/
def wxFSW_EVENT_ACCESS : Nat := 0x10

/-- A warning condition has arised (`wxFSW_EVENT_WARNING = 0x20`). -/
def wxFSW_EVENT_WARNING : Nat := 0x20

/-- An error condition has arised (`wxFSW_EVENT_ERROR = 0x40`). -/
def wxFSW_EVENT_ERROR : Nat := 0x40

/-- `wxFSW_EVENT_ALL`, defined in the header as the bitwise OR of the seven
event-kind constants. -/
def wxFSW_EVENT_ALL : Nat :=
  wxFSW_EVENT_CREATE ||| wxFSW_EVENT_DELETE |||
    wxFSW_EVENT_RENAME ||| wxFSW_EVENT_MODIFY |||
    wxFSW_EVENT_ACCESS |||
    wxFSW_EVENT_WARNING ||| wxFSW_EVENT_ERROR

/-- The seven individual event kinds, in the order the header declares them. -/
def allEventKinds : List Nat :=
  [wxFSW_EVENT_CREATE, wxFSW_EVENT_DELETE, wxFSW_EVENT_RENAME,
   wxFSW_EVENT_MODIFY, wxFSW_EVENT_ACCESS,
   wxFSW_EVENT_WARNING, wxFSW_EVENT_ERROR]

/-! ### Watch registry

Modelled from the spec: the implementation of `wxFileSystemWatcherBase`
(its watch table and the bodies of `Add`, `AddTree`, `Remove`,
`RemoveTree`, `RemoveAll`, `GetWatchedPathCount`, `GetWatchedPaths`) is
not under the shipped sources; only the header declares them.  The model
follows §3 "Data model" and §4.1 "Watch Registry" of the specification. -/

/-- Modelled from the spec: a `WatchedPath` registry entry —
`{ path, eventFilter, recursive, backendHandle }`, extended with the
spec's `WatchTree` bookkeeping: whether the entry is an implicit child of
a recursive root, and which root it belongs to (`rootPath` is the entry's
own path for explicit entries). -/
structure WatchEntry where
  path : String
  eventFilter : Nat
  recursive : Bool
  implicitChild : Bool
  rootPath : String
  nameFilter : String
  backendHandle : Nat
deriving DecidableEq, Repr

/-- Modelled from the spec: the watcher's registry state — the table of
`WatchedPath` entries plus a counter from which fresh opaque backend
handles are drawn. -/
structure wxFileSystemWatcherBase where
  watches : List WatchEntry
  nextHandle : Nat
deriving DecidableEq, Repr

namespace wxFileSystemWatcherBase

/-- Modelled from the spec: whether any entry (explicit or implicit) is
already registered for `p` — the "already registered" precondition check
of `Add`/`AddTree`. -/
def pathRegistered (w : wxFileSystemWatcherBase) (p : String) : Bool :=
  w.watches.any (fun e => e.path == p)

/-- Modelled from the spec: `Add(path, eventFilter) -> bool` registers a
single non-recursive watch.  It fails, leaving the registry unchanged, if
the path does not exist on disk (`fsExists`, a parameter of the model
standing for the filesystem check) or is already registered; on success a
fresh backend handle is consumed.  (The Warning the spec attaches to a
failed `Add` goes to the log channel and is not part of any claim, so it
is not modelled.) -/
def Add (w : wxFileSystemWatcherBase) (p : String) (events : Nat)
    (fsExists : Bool) : Bool × wxFileSystemWatcherBase :=
  if fsExists && !(pathRegistered w p) then
    (true,
      { watches := w.watches ++
          [{ path := p, eventFilter := events, recursive := false,
             implicitChild := false, rootPath := p, nameFilter := "",
             backendHandle := w.nextHandle }],
        nextHandle := w.nextHandle + 1 })
  else
    (false, w)

/-- Modelled from the spec: `AddTree(path, eventFilter, nameFilter) -> bool`
registers `path` as an explicit recursive root together with one implicit
child entry per subdirectory discovered by the initial recursive walk
(`children`, a parameter of the model standing for that walk's result).
It fails, leaving the registry unchanged, if the root does not exist or is
already registered. -/
def AddTree (w : wxFileSystemWatcherBase) (p : String) (events : Nat)
    (filter : String) (children : List String) (fsExists : Bool) :
    Bool × wxFileSystemWatcherBase :=
  if fsExists && !(pathRegistered w p) then
    (true,
      { watches := w.watches ++
          ({ path := p, eventFilter := events, recursive := true,
             implicitChild := false, rootPath := p, nameFilter := filter,
             backendHandle := w.nextHandle } ::
           (children.enum.map (fun ci =>
             { path := ci.2, eventFilter := events, recursive := false,
               implicitChild := true, rootPath := p, nameFilter := filter,
               backendHandle := w.nextHandle + 1 + ci.1 }))),
        nextHandle := w.nextHandle + 1 + children.length })
  else
    (false, w)

/-- Modelled from the spec: `Remove(path) -> bool` cancels the single watch
for `path`; it fails if `path` was never registered as an explicit
(non-implicit) entry.  Precondition failures are reported only through the
boolean return: the third component lists the change types of the events
the call emits, and it is empty in both branches (§7(a): local
precondition errors never escalate to events). -/
def Remove (w : wxFileSystemWatcherBase) (p : String) :
    Bool × wxFileSystemWatcherBase × List Nat :=
  if w.watches.any (fun e => e.path == p && !e.implicitChild) then
    (true,
      { w with watches :=
          w.watches.filter (fun e => !(e.path == p && !e.implicitChild)) },
      [])
  else
    (false, w, [])

/-- Modelled from the spec: `RemoveTree(path) -> bool` cancels `path`'s
watch and every implicit child watch beneath it (the entries whose
`rootPath` is `path`); it fails if `path` is not an explicit entry. -/
def RemoveTree (w : wxFileSystemWatcherBase) (p : String) :
    Bool × wxFileSystemWatcherBase :=
  if w.watches.any (fun e => e.path == p && !e.implicitChild) then
    let kept := w.watches.filter
      (fun e => !(e.path == p || (e.implicitChild && e.rootPath == p)))
    (true, { w with watches := kept })
  else
    (false, w)

/-- Modelled from the spec: `RemoveAll() -> bool` cancels every watch and
always succeeds (a no-op on an empty registry). -/
def RemoveAll (w : wxFileSystemWatcherBase) :
    Bool × wxFileSystemWatcherBase :=
  (true, { w with watches := [] })

/-- The externally visible watch set: the paths of the explicit
(non-implicit) entries, in registration order. -/
def watchedPathsList (w : wxFileSystemWatcherBase) : List String :=
  (w.watches.filter (fun e => !e.implicitChild)).map (fun e => e.path)

/-- Modelled from the spec: `GetWatchedPathCount() -> int` reports the
number of explicitly-registered roots, not implicit recursive children. -/
def GetWatchedPathCount (w : wxFileSystemWatcherBase) : Nat :=
  w.watches.countP (fun e => !e.implicitChild)

/-- Modelled from the spec: `GetWatchedPaths(paths)` appends the watched
paths (explicit roots only) to `paths` and returns the number of entries
appended. -/
def GetWatchedPaths (w : wxFileSystemWatcherBase) (paths : List String) :
    Nat × List String :=
  ((watchedPathsList w).length, paths ++ watchedPathsList w)

end wxFileSystemWatcherBase

/-! ### Events, translator and dispatcher

Modelled from the spec: the bodies of `wxFileSystemWatcherEvent`'s
accessors, the Event Translator and the Dispatcher are not under the
shipped sources; only the event class declaration is.  The model follows
§3 "ChangeEvent", §4.2 (raw-event shape), §4.3 "Event Translator" and
§4.4 "Dispatcher" of the specification. -/

/-- Modelled from the spec: a `ChangeEvent` —
`{ kind, path, newPath (for Rename the destination, equal to path
otherwise), message (present only for Warning/Error) }`. -/
structure wxFileSystemWatcherEvent where
  changeType : Nat
  path : String
  newPath : String
  errorDescription : String
deriving DecidableEq, Repr

namespace wxFileSystemWatcherEvent

/-- `GetPath()`: the path at which the event occurred. -/
def GetPath (e : wxFileSystemWatcherEvent) : String := e.path

/-- `GetNewPath()`: the new path of the renamed file/dir for a rename
event, otherwise the same path as `GetPath()`. -/
def GetNewPath (e : wxFileSystemWatcherEvent) : String := e.newPath

/-- `GetChangeType()`: the type of file system change that occurred. -/
def GetChangeType (e : wxFileSystemWatcherEvent) : Nat := e.changeType

/-- Modelled from the spec: `IsError()` tests the event's error/warning
flag — whether the change type carries the `wxFSW_EVENT_WARNING` or
`wxFSW_EVENT_ERROR` bit. -/
def IsError (e : wxFileSystemWatcherEvent) : Bool :=
  (e.changeType &&& (wxFSW_EVENT_WARNING ||| wxFSW_EVENT_ERROR)) != 0

end wxFileSystemWatcherEvent

/-- Modelled from the spec: the raw-event shape every backend variant
produces at the boundary with the Event Translator —
`{path, newPathOrNone, rawKindMask, isOverflow}`. -/
structure RawEvent where
  path : String
  newPathOrNone : Option String
  rawKindMask : Nat
  isOverflow : Bool
deriving DecidableEq, Repr

/-- Modelled from the spec: the Event Translator maps `rawKindMask` to one
or more `ChangeEvent` kinds (one event per raw bit set, in the header's
declaration order); a Rename event's `newPath` is the raw destination
path (falling back to `path` when the backend supplied none), every other
kind's `newPath` equals `path`.  On `isOverflow` it synthesizes a single
Warning event saying events may have been lost. -/
def translateRaw (raw : RawEvent) : List wxFileSystemWatcherEvent :=
  if raw.isOverflow then
    [{ changeType := wxFSW_EVENT_WARNING, path := raw.path,
       newPath := raw.path,
       errorDescription :=
         "some events for this path may have been lost" }]
  else
    (allEventKinds.filter (fun k => raw.rawKindMask &&& k != 0)).map
      (fun k =>
        if k == wxFSW_EVENT_RENAME then
          { changeType := k, path := raw.path,
            newPath := raw.newPathOrNone.getD raw.path,
            errorDescription := "" }
        else
          { changeType := k, path := raw.path, newPath := raw.path,
            errorDescription := "" })

/-- Modelled from the spec: whether the watcher has a watch covering `p` —
an entry for `p` itself, or a recursive entry whose root is a prefix of
`p`.  Raw notifications for unwatched paths produce no events. -/
def watchesPath (w : wxFileSystemWatcherBase) (p : String) : Bool :=
  w.watches.any (fun e => e.path == p || (e.recursive && e.path.isPrefixOf p))

/-- Modelled from the spec: the events the engine produces for one raw OS
notification — the translated events when the notification's path is
covered by a live watch, nothing otherwise. -/
def eventsFor (w : wxFileSystemWatcherBase) (raw : RawEvent) :
    List wxFileSystemWatcherEvent :=
  if watchesPath w raw.path then translateRaw raw else []

/-- Modelled from the spec: the destructor stops all paths from being
watched and frees the system resources — the registry is torn down to the
state `RemoveAll` leaves. -/
def destroy (w : wxFileSystemWatcherBase) : wxFileSystemWatcherBase :=
  { w with watches := [] }

/-- Modelled from the spec: the Dispatcher's observable state — the
sequence of events delivered so far to the single registered consumer. -/
structure Dispatcher where
  delivered : List wxFileSystemWatcherEvent
deriving DecidableEq, Repr

/-- Modelled from the spec: delivering one translated event appends it to
the consumer's delivered sequence, synchronously (no internal queue). -/
def dispatchOne (d : Dispatcher) (e : wxFileSystemWatcherEvent) :
    Dispatcher :=
  { delivered := d.delivered ++ [e] }

/-- Modelled from the spec: the Dispatcher consumes the Translator's
output one event at a time, in the order produced. -/
def dispatchAll (d : Dispatcher) (es : List wxFileSystemWatcherEvent) :
    Dispatcher :=
  es.foldl dispatchOne d

/-- A concrete two-entry watcher state used as a test input: an explicit
recursive watch for "a" plus the implicit child watch for "x" that a tree
walk under "a" would have seeded. -/
def sampleWatcher : wxFileSystemWatcherBase :=
  { watches :=
      [{ path := "a", eventFilter := 127, recursive := true,
         implicitChild := false, rootPath := "a", nameFilter := "",
         backendHandle := 0 },
       { path := "x", eventFilter := 127, recursive := false,
         implicitChild := true, rootPath := "a", nameFilter := "",
         backendHandle := 1 }],
    nextHandle := 2 }

end FsWatcher

namespace FsWatcher

open wxFileSystemWatcherBase

/-- The explicit (non-implicit) entry paths of a watch table, in order. -/
def explicitPaths (l : List WatchEntry) : List String :=
  (l.filter (fun e => !e.implicitChild)).map (fun e => e.path)

theorem watchedPathsList_eq (w : wxFileSystemWatcherBase) :
    watchedPathsList w = explicitPaths w.watches := rfl

theorem count_explicitPaths (l : List WatchEntry) (p : String) :
    (explicitPaths l).count p =
      l.countP (fun e => e.path == p && !e.implicitChild) := by
  rw [explicitPaths, List.count_eq_countP, List.countP_map,
    List.countP_filter]
  rfl

theorem dispatchAll_delivered (d : Dispatcher)
    (es : List wxFileSystemWatcherEvent) :
    (dispatchAll d es).delivered = d.delivered ++ es := by
  induction es generalizing d with
  | nil => simp [dispatchAll]
  | cons e es ih =>
      simp [dispatchAll] at ih ⊢
      rw [ih]
      simp [dispatchOne]

theorem countP_explicit_zero (w : wxFileSystemWatcherBase) (p : String)
    (h : pathRegistered w p = false) :
    w.watches.countP (fun e => e.path == p && !e.implicitChild) = 0 := by
  rw [List.countP_eq_zero]
  intro e he
  have hne := List.any_eq_false.1 h e he
  simp only [Bool.and_eq_true, not_and]
  intro hp
  exact absurd hp hne

theorem add_true_cases (w : wxFileSystemWatcherBase) (p : String)
    (evts : Nat) (ex : Bool) (h : (w.Add p evts ex).1 = true) :
    ex = true ∧ pathRegistered w p = false ∧
    (w.Add p evts ex).2 =
      { watches := w.watches ++
          [{ path := p, eventFilter := evts, recursive := false,
             implicitChild := false, rootPath := p, nameFilter := "",
             backendHandle := w.nextHandle }],
        nextHandle := w.nextHandle + 1 } := by
  by_cases hc : (ex && !(pathRegistered w p)) = true
  · obtain ⟨h1, h2⟩ : ex = true ∧ pathRegistered w p = false := by
      simpa using hc
    refine ⟨h1, h2, ?_⟩
    rw [wxFileSystemWatcherBase.Add, if_pos hc]
  · rw [wxFileSystemWatcherBase.Add, if_neg hc] at h
    simp at h

theorem add_registered_noop (w : wxFileSystemWatcherBase) (p : String)
    (evts : Nat) (ex : Bool) (h : pathRegistered w p = true) :
    w.Add p evts ex = (false, w) := by
  simp [wxFileSystemWatcherBase.Add, h]

theorem count_after_add_other (w : wxFileSystemWatcherBase)
    (p q : String) (evq : Nat) (exq : Bool) (hq : q ≠ p) :
    (watchedPathsList (w.Add q evq exq).2).count p =
      (watchedPathsList w).count p := by
  rw [wxFileSystemWatcherBase.Add]
  by_cases hc : (exq && !(pathRegistered w q)) = true
  · rw [if_pos hc]
    rw [watchedPathsList_eq, watchedPathsList_eq, count_explicitPaths,
      count_explicitPaths, List.countP_append]
    simp [hq]
  · rw [if_neg hc]

theorem count_after_remove_other (w : wxFileSystemWatcherBase)
    (p q : String) (hq : q ≠ p) :
    (watchedPathsList (w.Remove q).2.1).count p =
      (watchedPathsList w).count p := by
  rw [Remove]
  by_cases hc :
      (w.watches.any (fun e => e.path == q && !e.implicitChild)) = true
  · rw [if_pos hc]
    rw [watchedPathsList_eq, watchedPathsList_eq, count_explicitPaths,
      count_explicitPaths, List.countP_filter]
    apply List.countP_congr
    intro e _
    constructor
    · intro hx
      rw [Bool.and_eq_true] at hx
      exact hx.1
    · intro hA
      have hp : (e.path == q) = false := by
        have hpp : (e.path == p) = true := by
          rw [Bool.and_eq_true] at hA
          exact hA.1
        rw [beq_eq_false_iff_ne]
        rw [beq_iff_eq] at hpp
        rw [hpp]
        exact hq.symm
      simp [hA, hp]
  · rw [if_neg hc]

theorem count_after_removeTree_other (w : wxFileSystemWatcherBase)
    (p q : String) (hq : q ≠ p) :
    (watchedPathsList (w.RemoveTree q).2).count p =
      (watchedPathsList w).count p := by
  rw [RemoveTree]
  by_cases hc :
      (w.watches.any (fun e => e.path == q && !e.implicitChild)) = true
  · rw [if_pos hc]
    rw [watchedPathsList_eq, watchedPathsList_eq, count_explicitPaths,
      count_explicitPaths, List.countP_filter]
    apply List.countP_congr
    intro e _
    constructor
    · intro hx
      rw [Bool.and_eq_true] at hx
      exact hx.1
    · intro hA
      rw [Bool.and_eq_true] at hA
      have hpq : (e.path == q) = false := by
        rw [beq_eq_false_iff_ne]
        have hpp := hA.1
        rw [beq_iff_eq] at hpp
        rw [hpp]
        exact hq.symm
      have hImp : e.implicitChild = false := by
        simpa using hA.2
      simp [Bool.and_eq_true, hA.1, hA.2, hpq, hImp]
  · rw [if_neg hc]

theorem count_after_remove_self (w : wxFileSystemWatcherBase)
    (p : String) :
    (watchedPathsList (w.Remove p).2.1).count p = 0 := by
  rw [Remove]
  by_cases hc :
      (w.watches.any (fun e => e.path == p && !e.implicitChild)) = true
  · rw [if_pos hc]
    rw [watchedPathsList_eq, count_explicitPaths, List.countP_filter,
      List.countP_eq_zero]
    intro e _
    simp only [Bool.and_eq_true, Bool.not_eq_true', not_and]
    intro hA hB
    simp [hA.1, hA.2] at hB
  · rw [if_neg hc]
    have hfalse : (w.watches.any
        (fun e => e.path == p && !e.implicitChild)) = false := by
      simpa using hc
    rw [watchedPathsList_eq, count_explicitPaths, List.countP_eq_zero]
    intro e he
    exact List.any_eq_false.1 hfalse e he

theorem count_after_add_self (w : wxFileSystemWatcherBase) (p : String)
    (evts : Nat) (ex : Bool) (h : (w.Add p evts ex).1 = true) :
    (watchedPathsList (w.Add p evts ex).2).count p = 1 := by
  obtain ⟨_, hreg, hw1⟩ := add_true_cases w p evts ex h
  rw [hw1, watchedPathsList_eq, count_explicitPaths, List.countP_append]
  have h0 := countP_explicit_zero w p hreg
  rw [h0]
  simp

theorem pathRegistered_after_add_self (w : wxFileSystemWatcherBase)
    (p : String) (evts : Nat) (ex : Bool)
    (h : (w.Add p evts ex).1 = true) :
    pathRegistered (w.Add p evts ex).2 p = true := by
  obtain ⟨_, _, hw1⟩ := add_true_cases w p evts ex h
  rw [hw1]
  simp [pathRegistered]

theorem remove_after_add_self (w : wxFileSystemWatcherBase) (p : String)
    (evts : Nat) (ex : Bool) (h : (w.Add p evts ex).1 = true) :
    ((w.Add p evts ex).2.Remove p).1 = true := by
  obtain ⟨_, _, hw1⟩ := add_true_cases w p evts ex h
  rw [hw1, wxFileSystemWatcherBase.Remove]
  simp

theorem count_after_removeAll (w : wxFileSystemWatcherBase) (p : String) :
    (watchedPathsList (w.RemoveAll).2).count p = 0 := by
  simp [wxFileSystemWatcherBase.RemoveAll, watchedPathsList]

/-- **C8.** The event-kind constants have the exact values Create=0x01,
Delete=0x02, Rename=0x04, Modify=0x08, Access=0x10, Warning=0x20,
Error=0x40, and `wxFSW_EVENT_ALL`, the bitwise OR of the seven, equals
0x7F. -/
theorem C8_event_flag_values :
    wxFSW_EVENT_CREATE = 0x01 ∧ wxFSW_EVENT_DELETE = 0x02 ∧
    wxFSW_EVENT_RENAME = 0x04 ∧ wxFSW_EVENT_MODIFY = 0x08 ∧
    wxFSW_EVENT_ACCESS = 0x10 ∧ wxFSW_EVENT_WARNING = 0x20 ∧
    wxFSW_EVENT_ERROR = 0x40 ∧
    wxFSW_EVENT_ALL =
      (wxFSW_EVENT_CREATE ||| wxFSW_EVENT_DELETE ||| wxFSW_EVENT_RENAME |||
       wxFSW_EVENT_MODIFY ||| wxFSW_EVENT_ACCESS |||
       wxFSW_EVENT_WARNING ||| wxFSW_EVENT_ERROR) ∧
    wxFSW_EVENT_ALL = 0x7F := by
  refine ⟨rfl, rfl, rfl, rfl, rfl, rfl, rfl, rfl, ?_⟩
  decide

/-- **C4.** `RemoveAll` always returns true, regardless of the watcher's
state, and afterwards `GetWatchedPathCount` is 0; calling it twice in
succession returns true both times and leaves the count at 0. -/
theorem C4_removeAll_idempotent (w : wxFileSystemWatcherBase) :
    (w.RemoveAll).1 = true ∧
    GetWatchedPathCount (w.RemoveAll).2 = 0 ∧
    ((w.RemoveAll).2.RemoveAll).1 = true ∧
    GetWatchedPathCount ((w.RemoveAll).2.RemoveAll).2 = 0 := by
  refine ⟨rfl, ?_, rfl, ?_⟩ <;> simp [RemoveAll, GetWatchedPathCount]

/-- **C2.** `GetWatchedPaths(paths)` appends exactly the explicitly
registered root paths (never implicit children) to `paths`, returns the
number of entries appended, and that return value equals
`GetWatchedPathCount()`. -/
theorem C2_getWatchedPaths_spec (w : wxFileSystemWatcherBase)
    (paths : List String) :
    (w.GetWatchedPaths paths).2 = paths ++ watchedPathsList w ∧
    (w.GetWatchedPaths paths).1 =
      ((w.GetWatchedPaths paths).2.length - paths.length) ∧
    (w.GetWatchedPaths paths).1 = GetWatchedPathCount w := by
  refine ⟨rfl, ?_, ?_⟩
  · simp [GetWatchedPaths]
  · simp [GetWatchedPaths, GetWatchedPathCount, watchedPathsList,
      List.countP_eq_length_filter]

/-- **C1.** After a successful `Add` of `p`, the path appears exactly once
in the watched-path listing; a second `Add` of `p` without an intervening
removal returns false and leaves the watcher — watch table and backend
handle counter — unchanged, with no duplicate entry; the single occurrence
survives an `Add` of a different path `q` and a `Remove`/`RemoveTree` of
`q`; and a `Remove` of `p` then succeeds and, like `RemoveAll`, leaves
`p` out of the listing. -/
theorem C1_add_exactly_once_until_removed (w : wxFileSystemWatcherBase)
    (p q : String) (evts evts2 evq : Nat) (ex ex2 exq : Bool)
    (h : (w.Add p evts ex).1 = true) (hq : q ≠ p) :
    (watchedPathsList (w.Add p evts ex).2).count p = 1 ∧
    ((w.Add p evts ex).2.Add p evts2 ex2).1 = false ∧
    ((w.Add p evts ex).2.Add p evts2 ex2).2 = (w.Add p evts ex).2 ∧
    (watchedPathsList ((w.Add p evts ex).2.Add q evq exq).2).count p = 1 ∧
    (watchedPathsList ((w.Add p evts ex).2.Remove q).2.1).count p = 1 ∧
    (watchedPathsList ((w.Add p evts ex).2.RemoveTree q).2).count p = 1 ∧
    ((w.Add p evts ex).2.Remove p).1 = true ∧
    (watchedPathsList ((w.Add p evts ex).2.Remove p).2.1).count p = 0 ∧
    (watchedPathsList ((w.Add p evts ex).2.RemoveAll).2).count p = 0 := by
  have hc1 := count_after_add_self w p evts ex h
  have hrg := pathRegistered_after_add_self w p evts ex h
  have hnoop := add_registered_noop (w.Add p evts ex).2 p evts2 ex2 hrg
  refine ⟨hc1, ?_, ?_, ?_, ?_, ?_, ?_, ?_, ?_⟩
  · rw [hnoop]
  · rw [hnoop]
  · rw [count_after_add_other _ p q evq exq hq]
    exact hc1
  · rw [count_after_remove_other _ p q hq]
    exact hc1
  · rw [count_after_removeTree_other _ p q hq]
    exact hc1
  · exact remove_after_add_self w p evts ex h
  · exact count_after_remove_self _ p
  · exact count_after_removeAll _ p

/-- Closed witness for C1: starting from the empty watcher, `Add "a"`
succeeds and the invariant holds with `q = "b"`. -/
theorem C1_add_exactly_once_until_removed_witness :
    ((({ watches := [], nextHandle := 0 } :
        wxFileSystemWatcherBase).Add "a" 127 true).1 = true ∧
     "b" ≠ "a") ∧
    (watchedPathsList (({ watches := [], nextHandle := 0 } :
        wxFileSystemWatcherBase).Add "a" 127 true).2).count "a" = 1 ∧
    ((({ watches := [], nextHandle := 0 } :
        wxFileSystemWatcherBase).Add "a" 127 true).2.Add "a" 127 true).1
      = false ∧
    ((({ watches := [], nextHandle := 0 } :
        wxFileSystemWatcherBase).Add "a" 127 true).2.Add "a" 127 true).2
      = (({ watches := [], nextHandle := 0 } :
          wxFileSystemWatcherBase).Add "a" 127 true).2 ∧
    (watchedPathsList ((({ watches := [], nextHandle := 0 } :
        wxFileSystemWatcherBase).Add "a" 127 true).2.Add "b" 127
          true).2).count "a" = 1 ∧
    (watchedPathsList ((({ watches := [], nextHandle := 0 } :
        wxFileSystemWatcherBase).Add "a" 127 true).2.Remove
          "b").2.1).count "a" = 1 ∧
    (watchedPathsList ((({ watches := [], nextHandle := 0 } :
        wxFileSystemWatcherBase).Add "a" 127 true).2.RemoveTree
          "b").2).count "a" = 1 ∧
    ((({ watches := [], nextHandle := 0 } :
        wxFileSystemWatcherBase).Add "a" 127 true).2.Remove "a").1
      = true ∧
    (watchedPathsList ((({ watches := [], nextHandle := 0 } :
        wxFileSystemWatcherBase).Add "a" 127 true).2.Remove
          "a").2.1).count "a" = 0 ∧
    (watchedPathsList ((({ watches := [], nextHandle := 0 } :
        wxFileSystemWatcherBase).Add "a" 127 true).2.RemoveAll).2).count
          "a" = 0 :=
  ⟨⟨by decide, by decide⟩,
    C1_add_exactly_once_until_removed
      { watches := [], nextHandle := 0 } "a" "b" 127 127 127 true true true
      (by decide) (by decide)⟩

theorem addTree_true_cases (w : wxFileSystemWatcherBase) (p : String)
    (evts : Nat) (flt : String) (children : List String) (ex : Bool)
    (h : (w.AddTree p evts flt children ex).1 = true) :
    ex = true ∧ pathRegistered w p = false ∧
    (w.AddTree p evts flt children ex).2 =
      { watches := w.watches ++
          ({ path := p, eventFilter := evts, recursive := true,
             implicitChild := false, rootPath := p, nameFilter := flt,
             backendHandle := w.nextHandle } ::
           (children.enum.map (fun ci =>
             { path := ci.2, eventFilter := evts, recursive := false,
               implicitChild := true, rootPath := p, nameFilter := flt,
               backendHandle := w.nextHandle + 1 + ci.1 }))),
        nextHandle := w.nextHandle + 1 + children.length } := by
  by_cases hc : (ex && !(pathRegistered w p)) = true
  · obtain ⟨h1, h2⟩ : ex = true ∧ pathRegistered w p = false := by
      simpa using hc
    refine ⟨h1, h2, ?_⟩
    rw [wxFileSystemWatcherBase.AddTree, if_pos hc]
  · rw [wxFileSystemWatcherBase.AddTree, if_neg hc] at h
    simp at h

theorem removeTree_pos (w : wxFileSystemWatcherBase) (p : String)
    (hc : (w.watches.any (fun e => e.path == p && !e.implicitChild))
      = true) :
    w.RemoveTree p = (true,
      { w with watches := w.watches.filter (fun e => !(e.path == p || (e.implicitChild && e.rootPath == p))) }) := by
  rw [wxFileSystemWatcherBase.RemoveTree, if_pos hc]

/-- **C3.** After a successful `AddTree` of `root` (seeding one implicit
child watch per discovered subdirectory), `RemoveTree root` succeeds and
cancels the root's watch and every implicit child watch beneath it:
afterwards the watched-path listing does not contain `root`, no implicit
child entry of `root` remains in the watch table, and
`GetWatchedPathCount` is back to its value before the `AddTree` — it
counts neither the root nor any of its children. -/
theorem C3_removeTree_cancels_tree (w : wxFileSystemWatcherBase)
    (root : String) (evts : Nat) (flt : String) (children : List String)
    (ex : Bool) (h : (w.AddTree root evts flt children ex).1 = true) :
    (((w.AddTree root evts flt children ex).2).RemoveTree root).1
      = true ∧
    root ∉ watchedPathsList
      ((((w.AddTree root evts flt children ex).2).RemoveTree root).2) ∧
    (((((w.AddTree root evts flt children ex).2).RemoveTree
        root).2).watches.all
      (fun e => !(e.implicitChild && e.rootPath == root))) = true ∧
    GetWatchedPathCount
        ((((w.AddTree root evts flt children ex).2).RemoveTree root).2)
      = GetWatchedPathCount w := by
  obtain ⟨hex, hreg, hw1⟩ := addTree_true_cases w root evts flt children ex h
  rw [hw1]
  have hcany : ((w.watches ++
      (({ path := root, eventFilter := evts, recursive := true,
          implicitChild := false, rootPath := root, nameFilter := flt,
          backendHandle := w.nextHandle } : WatchEntry) ::
       (children.enum.map (fun ci =>
         ({ path := ci.2, eventFilter := evts, recursive := false,
            implicitChild := true, rootPath := root, nameFilter := flt,
            backendHandle := w.nextHandle + 1 + ci.1 } : WatchEntry))))).any
      (fun e => e.path == root && !e.implicitChild)) = true := by
    simp
  rw [removeTree_pos _ root hcany]
  refine ⟨rfl, ?_, ?_, ?_⟩
  · intro hmem
    rw [watchedPathsList_eq] at hmem
    simp only [explicitPaths, List.mem_map, List.mem_filter] at hmem
    obtain ⟨e, ⟨hkept, _⟩, hpath⟩ := hmem
    have hkeep := hkept.2
    rw [hpath] at hkeep
    simp at hkeep
  · rw [List.all_eq_true]
    intro e he
    rw [List.mem_filter] at he
    have hkeep := he.2
    simp only [Bool.not_eq_true', Bool.or_eq_false_iff] at hkeep
    simp [hkeep.2]
  · rw [GetWatchedPathCount, GetWatchedPathCount, List.countP_filter,
      List.countP_append, List.countP_cons]
    have hC : (children.enum.map (fun ci =>
        ({ path := ci.2, eventFilter := evts, recursive := false,
           implicitChild := true, rootPath := root, nameFilter := flt,
           backendHandle := w.nextHandle + 1 + ci.1 } :
         WatchEntry))).countP
        (fun e => (!e.implicitChild) &&
          !(e.path == root || (e.implicitChild && e.rootPath == root)))
        = 0 := by
      rw [List.countP_eq_zero]
      intro e he
      obtain ⟨ci, _, rfl⟩ := List.mem_map.1 he
      simp
    have hW : w.watches.countP
        (fun e => (!e.implicitChild) &&
          !(e.path == root || (e.implicitChild && e.rootPath == root)))
        = w.watches.countP (fun e => !e.implicitChild) := by
      apply List.countP_congr
      intro e he
      have hne : (e.path == root) = false := by
        have := List.any_eq_false.1 hreg e he
        simpa using this
      constructor
      · intro hx
        rw [Bool.and_eq_true] at hx
        exact hx.1
      · intro hx
        have himp : e.implicitChild = false := by
          simpa using hx
        simp [hx, hne, himp]
    rw [hC, hW]
    simp

/-- Closed witness for C3: `AddTree "r"` with one discovered subdirectory
`"r/a"` on the empty watcher succeeds, and `RemoveTree "r"` then cancels
the whole tree. -/
theorem C3_removeTree_cancels_tree_witness :
    ((({ watches := [], nextHandle := 0 } :
        wxFileSystemWatcherBase).AddTree "r" 127 "" ["r/a"] true).1
      = true) ∧
    (((({ watches := [], nextHandle := 0 } :
        wxFileSystemWatcherBase).AddTree "r" 127 "" ["r/a"]
          true).2).RemoveTree "r").1 = true ∧
    "r" ∉ watchedPathsList
      ((((({ watches := [], nextHandle := 0 } :
        wxFileSystemWatcherBase).AddTree "r" 127 "" ["r/a"]
          true).2).RemoveTree "r").2) ∧
    (((((({ watches := [], nextHandle := 0 } :
        wxFileSystemWatcherBase).AddTree "r" 127 "" ["r/a"]
          true).2).RemoveTree "r").2).watches.all
      (fun e => !(e.implicitChild && e.rootPath == "r"))) = true ∧
    GetWatchedPathCount
        ((((({ watches := [], nextHandle := 0 } :
          wxFileSystemWatcherBase).AddTree "r" 127 "" ["r/a"]
            true).2).RemoveTree "r").2)
      = GetWatchedPathCount
          ({ watches := [], nextHandle := 0 } : wxFileSystemWatcherBase) :=
  ⟨by decide,
    C3_removeTree_cancels_tree { watches := [], nextHandle := 0 }
      "r" 127 "" ["r/a"] true (by decide)⟩

/-- **C5.** For a path never registered as an explicit (non-implicit)
entry, `Remove` returns false, leaves the watched set unchanged, and emits
no Warning or Error event: the failure is reported only through the
boolean return. -/
theorem C5_remove_unregistered (w : wxFileSystemWatcherBase) (p : String)
    (h : (w.watches.any (fun e => e.path == p && !e.implicitChild))
      = false) :
    (w.Remove p).1 = false ∧ (w.Remove p).2.1 = w ∧
    (w.Remove p).2.2 = [] := by
  simp [wxFileSystemWatcherBase.Remove, h]

/-- Closed witness for C5: on `sampleWatcher`, which holds an explicit
entry for "a" and an implicit child entry for "x", `Remove "x"` fails,
changes nothing and emits nothing, because "x" is not an explicit
entry. -/
theorem C5_remove_unregistered_witness :
    ((sampleWatcher.watches.any
      (fun e => e.path == "x" && !e.implicitChild)) = false) ∧
    ((sampleWatcher.Remove "x").1 = false ∧
     (sampleWatcher.Remove "x").2.1 = sampleWatcher ∧
     (sampleWatcher.Remove "x").2.2 = []) :=
  ⟨by decide, C5_remove_unregistered sampleWatcher "x" (by decide)⟩

/-- **C6.** Every event the Translator produces whose change type is not
`wxFSW_EVENT_RENAME` has `GetNewPath()` equal to `GetPath()`; every Rename
event it produces has `GetNewPath()` equal to the rename destination path
reported by the backend. -/
theorem C6_newPath_for_nonRename (raw : RawEvent)
    (e : wxFileSystemWatcherEvent) (he : e ∈ translateRaw raw) :
    e.GetNewPath =
      if e.GetChangeType = wxFSW_EVENT_RENAME then
        raw.newPathOrNone.getD raw.path
      else
        e.GetPath := by
  rw [translateRaw] at he
  by_cases hov : raw.isOverflow
  · rw [if_pos hov, List.mem_singleton] at he
    subst he
    rw [if_neg (by simp [wxFileSystemWatcherEvent.GetChangeType,
      wxFSW_EVENT_WARNING, wxFSW_EVENT_RENAME])]
    rfl
  · rw [if_neg hov] at he
    obtain ⟨k, hk, rfl⟩ := List.mem_map.1 he
    by_cases hkr : k = wxFSW_EVENT_RENAME
    · subst hkr
      rw [if_pos (by decide)]
      simp [wxFileSystemWatcherEvent.GetNewPath,
        wxFileSystemWatcherEvent.GetChangeType]
    · rw [if_neg (by simpa using hkr)]
      rw [if_neg (by simpa [wxFileSystemWatcherEvent.GetChangeType] using hkr)]
      rfl

/-- Closed witness for C6: the raw notification
`{path := "f", newPathOrNone := some "g", rawKindMask := 0x05}` translates
to a Create event (whose new path equals its path) and a Rename event
(whose new path is the destination "g"); the Rename one is checked here. -/
theorem C6_newPath_for_nonRename_witness :
    (({ changeType := 0x04, path := "f", newPath := "g",
        errorDescription := "" } : wxFileSystemWatcherEvent) ∈
      translateRaw ({ path := "f", newPathOrNone := some "g",
                      rawKindMask := 0x05, isOverflow := false } :
        RawEvent)) ∧
    ({ changeType := 0x04, path := "f", newPath := "g",
        errorDescription := "" } :
      wxFileSystemWatcherEvent).GetNewPath =
      if ({ changeType := 0x04, path := "f", newPath := "g",
            errorDescription := "" } :
          wxFileSystemWatcherEvent).GetChangeType = wxFSW_EVENT_RENAME then
        (some "g").getD "f"
      else
        ({ changeType := 0x04, path := "f", newPath := "g",
            errorDescription := "" } :
          wxFileSystemWatcherEvent).GetPath :=
  ⟨by decide,
    C6_newPath_for_nonRename
      ({ path := "f", newPathOrNone := some "g", rawKindMask := 0x05,
         isOverflow := false } : RawEvent)
      ({ changeType := 0x04, path := "f", newPath := "g",
         errorDescription := "" } : wxFileSystemWatcherEvent)
      (by decide)⟩

/-- **C7.** For every event whose change type is one of the seven declared
event kinds, `IsError()` returns true exactly when the change type is
`wxFSW_EVENT_WARNING` or `wxFSW_EVENT_ERROR`, so a consumer on the single
delivery channel can distinguish warning/error events from data events by
this flag. -/
theorem C7_isError_iff (e : wxFileSystemWatcherEvent)
    (h : e.changeType ∈ allEventKinds) :
    e.IsError = true ↔
      (e.changeType = wxFSW_EVENT_WARNING ∨
       e.changeType = wxFSW_EVENT_ERROR) := by
  rw [wxFileSystemWatcherEvent.IsError]
  simp only [allEventKinds, List.mem_cons, List.mem_singleton,
    List.not_mem_nil, or_false] at h
  rcases h with h | h | h | h | h | h | h <;> rw [h] <;> decide

/-- Closed witness for C7: a Warning event (change type 0x20) has
`IsError() = true`, matching the iff at a concrete input. -/
theorem C7_isError_iff_witness :
    (({ changeType := 0x20, path := "p", newPath := "p",
        errorDescription := "overflow" } :
      wxFileSystemWatcherEvent).changeType ∈ allEventKinds) ∧
    (({ changeType := 0x20, path := "p", newPath := "p",
        errorDescription := "overflow" } :
      wxFileSystemWatcherEvent).IsError = true ↔
      (({ changeType := 0x20, path := "p", newPath := "p",
          errorDescription := "overflow" } :
        wxFileSystemWatcherEvent).changeType = wxFSW_EVENT_WARNING ∨
       ({ changeType := 0x20, path := "p", newPath := "p",
          errorDescription := "overflow" } :
        wxFileSystemWatcherEvent).changeType = wxFSW_EVENT_ERROR)) :=
  ⟨by decide,
    C7_isError_iff
      ({ changeType := 0x20, path := "p", newPath := "p",
         errorDescription := "overflow" } : wxFileSystemWatcherEvent)
      (by decide)⟩

/-- **C9.** The Dispatcher delivers the Translator's events to the single
consumer in exactly the order produced, with no internal reordering; in
particular, for every path, the delivered subsequence for that path equals
the produced subsequence for that path. -/
theorem C9_dispatch_preserves_order
    (es : List wxFileSystemWatcherEvent) :
    (dispatchAll { delivered := [] } es).delivered = es ∧
    ∀ p : String,
      ((dispatchAll { delivered := [] } es).delivered.filter
        (fun e => e.path == p)) = es.filter (fun e => e.path == p) := by
  have hd := dispatchAll_delivered { delivered := [] } es
  simp only [List.nil_append] at hd
  exact ⟨hd, fun p => by rw [hd]⟩

/-- **C10.** Tearing the watcher down leaves exactly the state `RemoveAll`
leaves: the watched-path set is empty, the count is 0, and no raw OS
notification produces any further event for the consumer. -/
theorem C10_destroy_stops_watching (w : wxFileSystemWatcherBase)
    (raw : RawEvent) :
    destroy w = (w.RemoveAll).2 ∧
    GetWatchedPathCount (destroy w) = 0 ∧
    watchedPathsList (destroy w) = [] ∧
    eventsFor (destroy w) raw = [] := by
  refine ⟨rfl, ?_, ?_, ?_⟩
  · simp [destroy, GetWatchedPathCount]
  · simp [destroy, watchedPathsList]
  · simp [eventsFor, watchesPath, destroy]

end FsWatcher
